import Mathlib

/-!
Shallow embedding of the request/response/state-reconciliation contract of the
three resource screens (Productos, Clientes, Ventas) of the storefront UI.

Each React event handler is embedded as a pure function from its inputs (the
component state it reads, the result of any synchronous prompt, and the outcome
of the single `fetch` it performs) to the ordered list of observable events it
produces: error-state writes, network requests, list/form state writes, nested
list reloads and alert dialogs.  Folding the event list over a state with
`run` gives the final component state.  Entity records are opaque to the UI,
so they are modelled as strings.
-/

/-- Outcome of a `fetch` whose body is read with `res.json()`:
the fetch itself may throw, the response may carry a non-ok status,
the body parse may throw, or everything succeeds with parsed data. -/
inductive FetchOutcome (α : Type) where
  | netThrow : FetchOutcome α
  | httpError (status : Nat) (bodyText : String) : FetchOutcome α
  | parseThrow : FetchOutcome α
  | success (data : α) : FetchOutcome α
deriving DecidableEq, Repr

/-- Outcome of a write-style `fetch` whose body is never parsed:
throw, non-ok status, or an ok response. -/
inductive WriteOutcome where
  | netThrow : WriteOutcome
  | httpError (status : Nat) (bodyText : String) : WriteOutcome
  | okResp : WriteOutcome
deriving DecidableEq, Repr

namespace Productos

/-- Base URL of the products API (productos.jsx line 12). -/
def API : String := "http://localhost:3001/producto"

/-- The create/edit form draft of the Productos screen. -/
structure Form where
  id : String
  name : String
  price : String
  stock : String
deriving DecidableEq, Repr

/-- The empty-form default `{ id: '', name: '', price: '', stock: '' }`. -/
def emptyForm : Form := { id := "", name := "", price := "", stock := "" }

/-- Local state of the Productos screen: available products, weekly sold
list, yearly count, form draft and the single shared error slot. -/
structure State where
  productos : List String
  recentSold : List String
  yearCount : Option Int
  form : Form
  error : String
deriving DecidableEq, Repr

/-- Request bodies built by the Productos handlers.  Each constructor keeps
the raw form strings; the JS coercions (`parseFloat`, `parseInt`) apply to
exactly the fields carried. -/
inductive Payload where
  | productFields (name : String) (price : String) (stock : String) : Payload
  | priceOnly (price : String) : Payload
  | amountOnly (amount : String) : Payload
deriving DecidableEq, Repr

/-- Observable events of a Productos handler invocation, in program order. -/
inductive Event where
  | setError (msg : String) : Event
  | request (method : String) (url : String) (body : Option Payload) : Event
  | setProductos (xs : List String) : Event
  | setRecentSold (xs : List String) : Event
  | setYearCount (v : Option Int) : Event
  | setForm (f : Form) : Event
  | reloadAvailable : Event
deriving DecidableEq, Repr

/-- Effect of one event on the screen state.  `request`, `reloadAvailable`
(the nested `loadAvailable()` call, abstracted) leave the state alone. -/
def apply (s : State) : Event → State
  | .setError m => { s with error := m }
  | .request _ _ _ => s
  | .setProductos xs => { s with productos := xs }
  | .setRecentSold xs => { s with recentSold := xs }
  | .setYearCount v => { s with yearCount := v }
  | .setForm f => { s with form := f }
  | .reloadAvailable => s

/-- Final state after an event trace. -/
def run (s : State) (evs : List Event) : State := evs.foldl apply s

/-- `loadAvailable` (productos.jsx lines 28-40): clear the error, GET
`?disponible=true`; on success replace `productos` with the parsed body;
on any failure set the fixed message and empty the list. -/
def loadAvailable (o : FetchOutcome (List String)) : List Event :=
  Event.setError "" ::
  Event.request "GET" (API ++ "?disponible=true") none ::
  match o with
  | .success data => [Event.setProductos data]
  | _ => [Event.setError "No se pudo cargar productos disponibles.",
          Event.setProductos []]

/-- `loadRecentSold` (productos.jsx lines 44-56). -/
def loadRecentSold (o : FetchOutcome (List String)) : List Event :=
  Event.setError "" ::
  Event.request "GET" (API ++ "/sold/estaSemana") none ::
  match o with
  | .success data => [Event.setRecentSold data]
  | _ => [Event.setError "No se pudo cargar productos vendidos esta semana.",
          Event.setRecentSold []]

/-- `loadYearCount` (productos.jsx lines 60-72): success destructures
`count` from the body; failure resets the count to null. -/
def loadYearCount (o : FetchOutcome Int) : List Event :=
  Event.setError "" ::
  Event.request "GET" (API ++ "/vendidos/añoActual") none ::
  match o with
  | .success count => [Event.setYearCount (some count)]
  | _ => [Event.setError "No se pudo cargar conteo de ventas anual.",
          Event.setYearCount none]

/-- `handleSubmit` (productos.jsx lines 83-106): PUT to the item URL when
`form.id` is non-empty (truthy), POST to the collection otherwise; on ok
reset the form and reload once; on failure only record the error. -/
def handleSubmit (s : State) (o : WriteOutcome) : List Event :=
  Event.setError "" ::
  Event.request (if s.form.id = "" then "POST" else "PUT")
    (if s.form.id = "" then API else API ++ "/" ++ s.form.id)
    (some (Payload.productFields s.form.name s.form.price s.form.stock)) ::
  match o with
  | .okResp => [Event.setForm emptyForm, Event.reloadAvailable]
  | _ => [Event.setError "Error al guardar el producto."]

/-- `handleDelete` (productos.jsx lines 110-120). -/
def handleDelete (id : String) (o : WriteOutcome) : List Event :=
  Event.setError "" ::
  Event.request "DELETE" (API ++ "/" ++ id) none ::
  match o with
  | .okResp => [Event.reloadAvailable]
  | _ => [Event.setError "Error al deshabilitar el producto."]

/-- `handleUpdatePrice` (productos.jsx lines 124-140): the prompt result is
`none` when dismissed; a falsy result (`null` or the empty string) makes the
whole handler a no-op before any request. -/
def handleUpdatePrice (id : String) (promptResult : Option String)
    (o : WriteOutcome) : List Event :=
  match promptResult with
  | none => []
  | some p =>
    if p = "" then []
    else
      Event.setError "" ::
      Event.request "PUT" (API ++ "/" ++ id) (some (Payload.priceOnly p)) ::
      match o with
      | .okResp => [Event.reloadAvailable]
      | _ => [Event.setError "Error al actualizar precio."]

/-- `handleIncStock` (productos.jsx lines 144-160). -/
def handleIncStock (id : String) (promptResult : Option String)
    (o : WriteOutcome) : List Event :=
  match promptResult with
  | none => []
  | some p =>
    if p = "" then []
    else
      Event.setError "" ::
      Event.request "PUT" (API ++ "/" ++ id ++ "/stock")
        (some (Payload.amountOnly p)) ::
      match o with
      | .okResp => [Event.reloadAvailable]
      | _ => [Event.setError "Error al incrementar stock."]

/-- Whether an event is a network request. -/
def Event.isRequest : Event → Bool
  | .request _ _ _ => true
  | _ => false

/-- The network requests of a trace, in order. -/
def requests (evs : List Event) : List Event := evs.filter Event.isRequest

/-- Number of nested full-list reloads triggered by a trace. -/
def reloadCount (evs : List Event) : Nat :=
  evs.countP fun e => match e with
    | .reloadAvailable => true
    | _ => false

/-- Whether a trace issues at least one network request. -/
abbrev issuesRequest (evs : List Event) : Prop := evs.any Event.isRequest = true

/-- The shared error slot is written to `''` before the first request of the
trace. -/
def clearsErrorBeforeRequest (evs : List Event) : Prop :=
  Event.setError "" ∈ evs.takeWhile (fun e => !e.isRequest)

end Productos

namespace Clientes

/-- Base URL of the clients API (clientes component, `/api/cliente`). -/
def API : String := "/api/cliente"

/-- The create/edit form draft of the Clientes screen. -/
structure Form where
  id : String
  nombre : String
  ciudad : String
  tipo : String
deriving DecidableEq, Repr

/-- The empty-form default `{ id: '', nombre: '', ciudad: '', tipo: '1' }`. -/
def emptyForm : Form := { id := "", nombre := "", ciudad := "", tipo := "1" }

/-- Local state of the Clientes screen. -/
structure State where
  clientes : List String
  filter : String
  form : Form
  error : String
deriving DecidableEq, Repr

/-- Request body of the Clientes submit: `{nombre, ciudad, tipo}` with
`tipo` coerced by `parseInt`. -/
inductive Payload where
  | clientFields (nombre : String) (ciudad : String) (tipo : String) : Payload
deriving DecidableEq, Repr

/-- Observable events of a Clientes handler invocation. -/
inductive Event where
  | setError (msg : String) : Event
  | request (method : String) (url : String) (body : Option Payload) : Event
  | setClientes (xs : List String) : Event
  | setForm (f : Form) : Event
  | reloadClients : Event
deriving DecidableEq, Repr

/-- Effect of one event on the screen state. -/
def apply (s : State) : Event → State
  | .setError m => { s with error := m }
  | .request _ _ _ => s
  | .setClientes xs => { s with clientes := xs }
  | .setForm f => { s with form := f }
  | .reloadClients => s

/-- Final state after an event trace. -/
def run (s : State) (evs : List Event) : State := evs.foldl apply s

/-- `loadClients`: clear the error, GET the collection with `?type=` exactly
when the filter is `'1'` or `'2'`; success replaces the list, failure sets
the fixed message and empties it. -/
def loadClients (s : State) (o : FetchOutcome (List String)) : List Event :=
  Event.setError "" ::
  Event.request "GET"
    (if s.filter = "1" ∨ s.filter = "2" then API ++ "?type=" ++ s.filter
     else API) none ::
  match o with
  | .success data => [Event.setClientes data]
  | _ => [Event.setError "No se pudieron cargar los clientes.",
          Event.setClientes []]

/-- `handleSubmit` of the Clientes screen: POST on empty id, PUT on
non-empty id; on ok reset the form and reload once. -/
def handleSubmit (s : State) (o : WriteOutcome) : List Event :=
  Event.setError "" ::
  Event.request (if s.form.id = "" then "POST" else "PUT")
    (if s.form.id = "" then API else API ++ "/" ++ s.form.id)
    (some (Payload.clientFields s.form.nombre s.form.ciudad s.form.tipo)) ::
  match o with
  | .okResp => [Event.setForm emptyForm, Event.reloadClients]
  | _ => [Event.setError "Error al guardar el cliente."]

/-- `handleDelete` of the Clientes screen. -/
def handleDelete (id : String) (o : WriteOutcome) : List Event :=
  Event.setError "" ::
  Event.request "DELETE" (API ++ "/" ++ id) none ::
  match o with
  | .okResp => [Event.reloadClients]
  | _ => [Event.setError "Error al desactivar el cliente."]

/-- Whether an event is a network request. -/
def Event.isRequest : Event → Bool
  | .request _ _ _ => true
  | _ => false

/-- The network requests of a trace, in order. -/
def requests (evs : List Event) : List Event := evs.filter Event.isRequest

/-- Number of nested full-list reloads triggered by a trace. -/
def reloadCount (evs : List Event) : Nat :=
  evs.countP fun e => match e with
    | .reloadClients => true
    | _ => false

end Clientes

namespace Ventas

/-- Base URL of the sales API (ventas.jsx line 12). -/
def API : String := "/api/ventas"

/-- The sale form draft: client id, free-text JSON line items, date. -/
structure SaleForm where
  clienteId : String
  items : String
  fecha : String
deriving DecidableEq, Repr

/-- Local state of the Ventas screen. -/
structure State where
  saleForm : SaleForm
  results : List String
deriving DecidableEq, Repr

/-- Request body of `handleNewSale`: `{clienteId, productos: JSON.parse(items)}`,
carried here as the raw strings. -/
inductive Payload where
  | saleBody (clienteId : String) (itemsJson : String) : Payload
deriving DecidableEq, Repr

/-- Observable events of a Ventas handler invocation. -/
inductive Event where
  | request (method : String) (url : String) (body : Option Payload) : Event
  | alert (msg : String) : Event
  | setResults (xs : List String) : Event
  | setSaleForm (f : SaleForm) : Event
deriving DecidableEq, Repr

/-- Effect of one event on the screen state; alerts and requests do not
touch it. -/
def apply (s : State) : Event → State
  | .request _ _ _ => s
  | .alert _ => s
  | .setResults xs => { s with results := xs }
  | .setSaleForm f => { s with saleForm := f }

/-- Final state after an event trace. -/
def run (s : State) (evs : List Event) : State := evs.foldl apply s

/-- `handleNewSale` (ventas.jsx lines 26-43).  `parseOk` is whether
`JSON.parse(saleForm.items)` succeeds; a parse failure throws before the
fetch.  The response's ok flag is never inspected: any response that does
not throw reaches the success alert and the form reset. -/
def handleNewSale (s : State) (parseOk : Bool) (o : WriteOutcome) :
    List Event :=
  if parseOk then
    Event.request "POST" API
      (some (Payload.saleBody s.saleForm.clienteId s.saleForm.items)) ::
    match o with
    | .netThrow => [Event.alert "Error registrando la venta"]
    | _ => [Event.alert "Venta registrada con éxito",
            Event.setSaleForm
              { s.saleForm with clienteId := "", items := "[]" }]
  else [Event.alert "Error registrando la venta"]

/-- `handleQuery` (ventas.jsx lines 47-69): an empty client id or date
aborts with a validation alert before any request; a non-ok response alerts
the literal status and body text; success replaces the results. -/
def handleQuery (s : State) (o : FetchOutcome (List String)) : List Event :=
  if s.saleForm.clienteId = "" ∨ s.saleForm.fecha = "" then
    [Event.alert "Completa cliente y fecha"]
  else
    Event.request "GET"
      (API ++ "/cliente/" ++ s.saleForm.clienteId ++ "/fecha/" ++
        s.saleForm.fecha) none ::
    match o with
    | .httpError status text =>
        [Event.alert ("Error " ++ toString status ++ ": " ++ text)]
    | .netThrow => [Event.alert "Error consultando las ventas"]
    | .parseThrow => [Event.alert "Error consultando las ventas"]
    | .success data => [Event.setResults data]

/-- Whether an event is a network request. -/
def Event.isRequest : Event → Bool
  | .request _ _ _ => true
  | _ => false

/-- Number of network requests issued by a trace. -/
def requestCount (evs : List Event) : Nat := (evs.filter Event.isRequest).length

end Ventas

/-! ### Concrete states used by witnesses and counterexamples -/

/-- A Productos state whose draft has an empty id (create mode). -/
def pCreate : Productos.State :=
  { productos := [], recentSold := [], yearCount := none,
    form := { id := "", name := "Latte", price := "2500", stock := "10" },
    error := "" }

/-- A Productos state whose draft has a non-empty id (edit mode). -/
def pEdit : Productos.State :=
  { productos := ["latte"], recentSold := [], yearCount := none,
    form := { id := "5", name := "Latte", price := "2600", stock := "3" },
    error := "" }

/-- A Clientes state whose draft has a non-empty id (edit mode). -/
def cEdit : Clientes.State :=
  { clientes := ["ana"], filter := "all",
    form := { id := "42", nombre := "Ana", ciudad := "Santiago", tipo := "2" },
    error := "" }

/-- A Clientes state whose draft has an empty id and filter `'1'`. -/
def cCreate : Clientes.State :=
  { clientes := [], filter := "1",
    form := { id := "", nombre := "Ana", ciudad := "Santiago", tipo := "1" },
    error := "" }

/-- A Ventas state with both query fields filled and a non-empty prior
result list. -/
def vFilled : Ventas.State :=
  { saleForm := { clienteId := "7", items := "[]", fecha := "2024-05-01" },
    results := ["venta-previa"] }

/-- A Ventas state with an empty client id. -/
def vNoClient : Ventas.State :=
  { saleForm := { clienteId := "", items := "[]", fecha := "2024-05-01" },
    results := [] }

/-! ### Claims -/

/-- C1: for loadClients, loadAvailable and loadRecentSold, every failing
fetch (non-ok status, network throw, body-parse throw) empties the local
list and sets the fixed non-empty error message, and every success replaces
the list with the parsed body and leaves the error empty. -/
theorem c1_list_fetch_reconciliation
    (sP : Productos.State) (sC : Clientes.State)
    (st : Nat) (b : String) (d : List String) :
    (Productos.run sP (Productos.loadAvailable FetchOutcome.netThrow)).productos = []
    ∧ (Productos.run sP (Productos.loadAvailable FetchOutcome.netThrow)).error
        = "No se pudo cargar productos disponibles."
    ∧ (Productos.run sP (Productos.loadAvailable (FetchOutcome.httpError st b))).productos = []
    ∧ (Productos.run sP (Productos.loadAvailable (FetchOutcome.httpError st b))).error
        = "No se pudo cargar productos disponibles."
    ∧ (Productos.run sP (Productos.loadAvailable FetchOutcome.parseThrow)).productos = []
    ∧ (Productos.run sP (Productos.loadAvailable FetchOutcome.parseThrow)).error
        = "No se pudo cargar productos disponibles."
    ∧ (Productos.run sP (Productos.loadAvailable (FetchOutcome.success d))).productos = d
    ∧ (Productos.run sP (Productos.loadAvailable (FetchOutcome.success d))).error = ""
    ∧ (Productos.run sP (Productos.loadRecentSold FetchOutcome.netThrow)).recentSold = []
    ∧ (Productos.run sP (Productos.loadRecentSold FetchOutcome.netThrow)).error
        = "No se pudo cargar productos vendidos esta semana."
    ∧ (Productos.run sP (Productos.loadRecentSold (FetchOutcome.httpError st b))).recentSold = []
    ∧ (Productos.run sP (Productos.loadRecentSold (FetchOutcome.httpError st b))).error
        = "No se pudo cargar productos vendidos esta semana."
    ∧ (Productos.run sP (Productos.loadRecentSold FetchOutcome.parseThrow)).recentSold = []
    ∧ (Productos.run sP (Productos.loadRecentSold FetchOutcome.parseThrow)).error
        = "No se pudo cargar productos vendidos esta semana."
    ∧ (Productos.run sP (Productos.loadRecentSold (FetchOutcome.success d))).recentSold = d
    ∧ (Productos.run sP (Productos.loadRecentSold (FetchOutcome.success d))).error = ""
    ∧ (Clientes.run sC (Clientes.loadClients sC FetchOutcome.netThrow)).clientes = []
    ∧ (Clientes.run sC (Clientes.loadClients sC FetchOutcome.netThrow)).error
        = "No se pudieron cargar los clientes."
    ∧ (Clientes.run sC (Clientes.loadClients sC (FetchOutcome.httpError st b))).clientes = []
    ∧ (Clientes.run sC (Clientes.loadClients sC (FetchOutcome.httpError st b))).error
        = "No se pudieron cargar los clientes."
    ∧ (Clientes.run sC (Clientes.loadClients sC FetchOutcome.parseThrow)).clientes = []
    ∧ (Clientes.run sC (Clientes.loadClients sC FetchOutcome.parseThrow)).error
        = "No se pudieron cargar los clientes."
    ∧ (Clientes.run sC (Clientes.loadClients sC (FetchOutcome.success d))).clientes = d
    ∧ (Clientes.run sC (Clientes.loadClients sC (FetchOutcome.success d))).error = ""
    ∧ "No se pudo cargar productos disponibles." ≠ ""
    ∧ "No se pudo cargar productos vendidos esta semana." ≠ ""
    ∧ "No se pudieron cargar los clientes." ≠ "" := by
  refine ⟨rfl, rfl, rfl, rfl, rfl, rfl, rfl, rfl, rfl, rfl, rfl, rfl, rfl,
    rfl, rfl, rfl, rfl, rfl, rfl, rfl, rfl, rfl, rfl, rfl, ?_, ?_, ?_⟩ <;>
  decide

/-- C2: submitting the client or product form with an empty draft id issues
a POST to the collection, with a non-empty id a PUT to the item URL; a
success response resets the form to its empty default and triggers exactly
one list reload, while a failing response triggers neither. -/
theorem c2_submit_create_update_contract
    (sP : Productos.State) (sC : Clientes.State) (o : WriteOutcome)
    (st : Nat) (b : String) :
    (sP.form.id = "" →
      Productos.requests (Productos.handleSubmit sP o)
        = [Productos.Event.request "POST" Productos.API
            (some (Productos.Payload.productFields sP.form.name sP.form.price
              sP.form.stock))])
    ∧ (¬ sP.form.id = "" →
      Productos.requests (Productos.handleSubmit sP o)
        = [Productos.Event.request "PUT" (Productos.API ++ "/" ++ sP.form.id)
            (some (Productos.Payload.productFields sP.form.name sP.form.price
              sP.form.stock))])
    ∧ (Productos.run sP (Productos.handleSubmit sP WriteOutcome.okResp)).form
        = Productos.emptyForm
    ∧ Productos.reloadCount (Productos.handleSubmit sP WriteOutcome.okResp) = 1
    ∧ (Productos.run sP (Productos.handleSubmit sP (WriteOutcome.httpError st b))).form
        = sP.form
    ∧ Productos.reloadCount (Productos.handleSubmit sP (WriteOutcome.httpError st b)) = 0
    ∧ (Productos.run sP (Productos.handleSubmit sP WriteOutcome.netThrow)).form = sP.form
    ∧ Productos.reloadCount (Productos.handleSubmit sP WriteOutcome.netThrow) = 0
    ∧ (sC.form.id = "" →
      Clientes.requests (Clientes.handleSubmit sC o)
        = [Clientes.Event.request "POST" Clientes.API
            (some (Clientes.Payload.clientFields sC.form.nombre sC.form.ciudad
              sC.form.tipo))])
    ∧ (¬ sC.form.id = "" →
      Clientes.requests (Clientes.handleSubmit sC o)
        = [Clientes.Event.request "PUT" (Clientes.API ++ "/" ++ sC.form.id)
            (some (Clientes.Payload.clientFields sC.form.nombre sC.form.ciudad
              sC.form.tipo))])
    ∧ (Clientes.run sC (Clientes.handleSubmit sC WriteOutcome.okResp)).form
        = Clientes.emptyForm
    ∧ Clientes.reloadCount (Clientes.handleSubmit sC WriteOutcome.okResp) = 1
    ∧ (Clientes.run sC (Clientes.handleSubmit sC (WriteOutcome.httpError st b))).form
        = sC.form
    ∧ Clientes.reloadCount (Clientes.handleSubmit sC (WriteOutcome.httpError st b)) = 0
    ∧ (Clientes.run sC (Clientes.handleSubmit sC WriteOutcome.netThrow)).form = sC.form
    ∧ Clientes.reloadCount (Clientes.handleSubmit sC WriteOutcome.netThrow) = 0 := by
  refine ⟨?_, ?_, rfl, rfl, rfl, rfl, rfl, rfl, ?_, ?_, rfl, rfl, rfl, rfl,
    rfl, rfl⟩
  · intro h
    cases o <;>
      simp [Productos.handleSubmit, Productos.requests, Productos.Event.isRequest,
        List.filter, h]
  · intro h
    cases o <;>
      simp [Productos.handleSubmit, Productos.requests, Productos.Event.isRequest,
        List.filter, h]
  · intro h
    cases o <;>
      simp [Clientes.handleSubmit, Clientes.requests, Clientes.Event.isRequest,
        List.filter, h]
  · intro h
    cases o <;>
      simp [Clientes.handleSubmit, Clientes.requests, Clientes.Event.isRequest,
        List.filter, h]

/-- C2 witness: the contract applied to a concrete create-mode product state
and a concrete edit-mode client state. -/
theorem c2_submit_create_update_contract_witness :
    Productos.requests (Productos.handleSubmit pCreate WriteOutcome.okResp)
      = [Productos.Event.request "POST" Productos.API
          (some (Productos.Payload.productFields "Latte" "2500" "10"))]
    ∧ Clientes.requests (Clientes.handleSubmit cEdit WriteOutcome.okResp)
      = [Clientes.Event.request "PUT" (Clientes.API ++ "/" ++ "42")
          (some (Clientes.Payload.clientFields "Ana" "Santiago" "2"))] :=
  ⟨(c2_submit_create_update_contract pCreate cEdit WriteOutcome.okResp 500 "x").1
      rfl,
   (c2_submit_create_update_contract pEdit cEdit WriteOutcome.okResp 500 "x").2.2.2.2.2.2.2.2.2.1
      (by decide)⟩

/-- C3 counterexample: a sales query with client `"7"` and date
`"2024-05-01"` hitting a 404 leaves a previously non-empty result list
non-empty, so the results are not "left empty" as claimed. -/
theorem c3_results_not_left_empty_counterexample :
    ¬ (Ventas.run vFilled
        (Ventas.handleQuery vFilled (FetchOutcome.httpError 404 "Not found"))).results
      = [] := by decide

/-- C3 amended: a sales query with non-empty client id and date that
receives a non-success response alerts the literal status and body text and
leaves the results list unchanged (hence still empty only when it was empty
before the query). -/
theorem c3_query_failure_surfaces_status
    (s : Ventas.State) (st : Nat) (tx : String)
    (h1 : ¬ s.saleForm.clienteId = "") (h2 : ¬ s.saleForm.fecha = "") :
    Ventas.handleQuery s (FetchOutcome.httpError st tx)
      = [Ventas.Event.request "GET"
          (Ventas.API ++ "/cliente/" ++ s.saleForm.clienteId ++ "/fecha/" ++
            s.saleForm.fecha) none,
         Ventas.Event.alert ("Error " ++ toString st ++ ": " ++ tx)]
    ∧ (Ventas.run s (Ventas.handleQuery s (FetchOutcome.httpError st tx))).results
        = s.results := by
  have hcond : ¬ (s.saleForm.clienteId = "" ∨ s.saleForm.fecha = "") := by
    rintro (h | h)
    · exact h1 h
    · exact h2 h
  constructor
  · simp [Ventas.handleQuery, hcond]
  · simp [Ventas.handleQuery, hcond, Ventas.run, Ventas.apply]

/-- C3 witness: the amended contract at the concrete 404 scenario. -/
theorem c3_query_failure_surfaces_status_witness :
    ¬ vFilled.saleForm.clienteId = "" ∧ ¬ vFilled.saleForm.fecha = ""
    ∧ (Ventas.run vFilled
        (Ventas.handleQuery vFilled (FetchOutcome.httpError 404 "Not found"))).results
      = vFilled.results :=
  ⟨by decide, by decide,
   (c3_query_failure_surfaces_status vFilled 404 "Not found" (by decide)
      (by decide)).2⟩

/-- C4: the code contradicts the claim — `handleNewSale` never checks
`res.ok`, so a non-2xx response still produces the success alert and resets
the client-id and line-item fields. -/
theorem c4_new_sale_ignores_http_status
    (s : Ventas.State) (st : Nat) (b : String) :
    Ventas.Event.alert "Venta registrada con éxito"
      ∈ Ventas.handleNewSale s true (WriteOutcome.httpError st b)
    ∧ (Ventas.run s (Ventas.handleNewSale s true (WriteOutcome.httpError st b))).saleForm
        = { s.saleForm with clienteId := "", items := "[]" } := by
  constructor
  · simp [Ventas.handleNewSale]
  · rfl

/-- C5: a sales query with an empty client id or empty date issues no
network request and surfaces the validation alert; with both fields
non-empty, exactly one request is issued. -/
theorem c5_query_field_validation
    (s : Ventas.State) (o : FetchOutcome (List String)) :
    (s.saleForm.clienteId = "" ∨ s.saleForm.fecha = "" →
      Ventas.handleQuery s o = [Ventas.Event.alert "Completa cliente y fecha"]
      ∧ Ventas.requestCount (Ventas.handleQuery s o) = 0)
    ∧ (¬ s.saleForm.clienteId = "" → ¬ s.saleForm.fecha = "" →
      Ventas.requestCount (Ventas.handleQuery s o) = 1) := by
  constructor
  · intro h
    constructor
    · simp [Ventas.handleQuery, h]
    · simp [Ventas.handleQuery, h, Ventas.requestCount, Ventas.Event.isRequest,
        List.filter]
  · intro h1 h2
    have hcond : ¬ (s.saleForm.clienteId = "" ∨ s.saleForm.fecha = "") := by
      rintro (h | h)
      · exact h1 h
      · exact h2 h
    cases o <;>
      simp [Ventas.handleQuery, hcond, Ventas.requestCount,
        Ventas.Event.isRequest, List.filter]

/-- C5 witness: an empty client id aborts with the validation alert and no
request; a filled form issues exactly one request. -/
theorem c5_query_field_validation_witness :
    (vNoClient.saleForm.clienteId = "" ∨ vNoClient.saleForm.fecha = "")
    ∧ Ventas.handleQuery vNoClient (FetchOutcome.success [])
        = [Ventas.Event.alert "Completa cliente y fecha"]
    ∧ Ventas.requestCount (Ventas.handleQuery vFilled (FetchOutcome.success [])) = 1 :=
  ⟨Or.inl rfl,
   ((c5_query_field_validation vNoClient (FetchOutcome.success [])).1
      (Or.inl rfl)).1,
   (c5_query_field_validation vFilled (FetchOutcome.success [])).2 (by decide)
      (by decide)⟩

/-- C6: a successful client or product delete triggers exactly one list
reload; a failing delete triggers zero reloads, records the fixed error
message and leaves the local list exactly as it was. -/
theorem c6_delete_reload_contract
    (id : String) (sP : Productos.State) (sC : Clientes.State)
    (st : Nat) (b : String) :
    Productos.reloadCount (Productos.handleDelete id WriteOutcome.okResp) = 1
    ∧ Productos.reloadCount (Productos.handleDelete id (WriteOutcome.httpError st b)) = 0
    ∧ Productos.reloadCount (Productos.handleDelete id WriteOutcome.netThrow) = 0
    ∧ (Productos.run sP (Productos.handleDelete id (WriteOutcome.httpError st b))).error
        = "Error al deshabilitar el producto."
    ∧ (Productos.run sP (Productos.handleDelete id (WriteOutcome.httpError st b))).productos
        = sP.productos
    ∧ (Productos.run sP (Productos.handleDelete id WriteOutcome.netThrow)).error
        = "Error al deshabilitar el producto."
    ∧ (Productos.run sP (Productos.handleDelete id WriteOutcome.netThrow)).productos
        = sP.productos
    ∧ Clientes.reloadCount (Clientes.handleDelete id WriteOutcome.okResp) = 1
    ∧ Clientes.reloadCount (Clientes.handleDelete id (WriteOutcome.httpError st b)) = 0
    ∧ Clientes.reloadCount (Clientes.handleDelete id WriteOutcome.netThrow) = 0
    ∧ (Clientes.run sC (Clientes.handleDelete id (WriteOutcome.httpError st b))).error
        = "Error al desactivar el cliente."
    ∧ (Clientes.run sC (Clientes.handleDelete id (WriteOutcome.httpError st b))).clientes
        = sC.clientes
    ∧ (Clientes.run sC (Clientes.handleDelete id WriteOutcome.netThrow)).error
        = "Error al desactivar el cliente."
    ∧ (Clientes.run sC (Clientes.handleDelete id WriteOutcome.netThrow)).clientes
        = sC.clientes :=
  ⟨rfl, rfl, rfl, rfl, rfl, rfl, rfl, rfl, rfl, rfl, rfl, rfl, rfl, rfl⟩

/-- C7: a create/update submission that receives a failing response leaves
every field of the form draft exactly as it was and records the fixed error
message. -/
theorem c7_failed_submit_preserves_draft
    (sP : Productos.State) (sC : Clientes.State) (st : Nat) (b : String) :
    (Productos.run sP (Productos.handleSubmit sP (WriteOutcome.httpError st b))).form
        = sP.form
    ∧ (Productos.run sP (Productos.handleSubmit sP (WriteOutcome.httpError st b))).error
        = "Error al guardar el producto."
    ∧ (Productos.run sP (Productos.handleSubmit sP WriteOutcome.netThrow)).form = sP.form
    ∧ (Productos.run sP (Productos.handleSubmit sP WriteOutcome.netThrow)).error
        = "Error al guardar el producto."
    ∧ (Clientes.run sC (Clientes.handleSubmit sC (WriteOutcome.httpError st b))).form
        = sC.form
    ∧ (Clientes.run sC (Clientes.handleSubmit sC (WriteOutcome.httpError st b))).error
        = "Error al guardar el cliente."
    ∧ (Clientes.run sC (Clientes.handleSubmit sC WriteOutcome.netThrow)).form = sC.form
    ∧ (Clientes.run sC (Clientes.handleSubmit sC WriteOutcome.netThrow)).error
        = "Error al guardar el cliente." :=
  ⟨rfl, rfl, rfl, rfl, rfl, rfl, rfl, rfl⟩

/-- C8: a dismissed or empty prompt makes the price update and stock
increment no-ops with no request; a non-empty prompt value sends exactly one
partial-update request carrying only the changed field, a success response
triggers one reload and a failing response records the fixed error. -/
theorem c8_prompt_single_field_updates
    (id p : String) (hp : ¬ p = "") (o : WriteOutcome)
    (sP : Productos.State) (st : Nat) (b : String) :
    Productos.handleUpdatePrice id none o = []
    ∧ Productos.handleUpdatePrice id (some "") o = []
    ∧ Productos.handleIncStock id none o = []
    ∧ Productos.handleIncStock id (some "") o = []
    ∧ Productos.requests (Productos.handleUpdatePrice id (some p) o)
        = [Productos.Event.request "PUT" (Productos.API ++ "/" ++ id)
            (some (Productos.Payload.priceOnly p))]
    ∧ Productos.requests (Productos.handleIncStock id (some p) o)
        = [Productos.Event.request "PUT" (Productos.API ++ "/" ++ id ++ "/stock")
            (some (Productos.Payload.amountOnly p))]
    ∧ Productos.reloadCount (Productos.handleUpdatePrice id (some p) WriteOutcome.okResp) = 1
    ∧ Productos.reloadCount
        (Productos.handleUpdatePrice id (some p) (WriteOutcome.httpError st b)) = 0
    ∧ (Productos.run sP (Productos.handleUpdatePrice id (some p) (WriteOutcome.httpError st b))).error
        = "Error al actualizar precio."
    ∧ Productos.reloadCount (Productos.handleIncStock id (some p) WriteOutcome.okResp) = 1
    ∧ Productos.reloadCount
        (Productos.handleIncStock id (some p) (WriteOutcome.httpError st b)) = 0
    ∧ (Productos.run sP (Productos.handleIncStock id (some p) (WriteOutcome.httpError st b))).error
        = "Error al incrementar stock." := by
  refine ⟨rfl, rfl, rfl, rfl, ?_, ?_, ?_, ?_, ?_, ?_, ?_, ?_⟩ <;>
    cases o <;>
    simp [Productos.handleUpdatePrice, Productos.handleIncStock,
      Productos.requests, Productos.Event.isRequest, Productos.reloadCount,
      Productos.run, Productos.apply, List.filter, hp]

/-- C8 witness: the contract at the concrete prompt value `"2500"`. -/
theorem c8_prompt_single_field_updates_witness :
    ¬ "2500" = ""
    ∧ Productos.requests
        (Productos.handleUpdatePrice "5" (some "2500") WriteOutcome.okResp)
      = [Productos.Event.request "PUT" (Productos.API ++ "/" ++ "5")
          (some (Productos.Payload.priceOnly "2500"))] :=
  ⟨by decide,
   (c8_prompt_single_field_updates "5" "2500" (by decide) WriteOutcome.okResp
      pCreate 500 "x").2.2.2.2.1⟩

/-- C9: every Productos operation that issues a request first writes the
empty string to the single shared error slot, and after it completes the
slot holds either the empty string or that operation's own fixed message —
so any later attempt erases the error of an earlier failed one (for
instance a successful weekly-sold load clears the available-products load
error). -/
theorem c9_shared_error_slot_reset
    (sP : Productos.State) (oL oR : FetchOutcome (List String))
    (oY : FetchOutcome Int) (w : WriteOutcome) (id : String)
    (pr : Option String) (d : List String) :
    (Productos.issuesRequest (Productos.loadAvailable oL) →
      Productos.clearsErrorBeforeRequest (Productos.loadAvailable oL))
    ∧ (Productos.issuesRequest (Productos.loadAvailable oL) →
      (Productos.run sP (Productos.loadAvailable oL)).error = ""
      ∨ (Productos.run sP (Productos.loadAvailable oL)).error
          = "No se pudo cargar productos disponibles.")
    ∧ (Productos.issuesRequest (Productos.loadRecentSold oR) →
      Productos.clearsErrorBeforeRequest (Productos.loadRecentSold oR))
    ∧ (Productos.issuesRequest (Productos.loadRecentSold oR) →
      (Productos.run sP (Productos.loadRecentSold oR)).error = ""
      ∨ (Productos.run sP (Productos.loadRecentSold oR)).error
          = "No se pudo cargar productos vendidos esta semana.")
    ∧ (Productos.issuesRequest (Productos.loadYearCount oY) →
      Productos.clearsErrorBeforeRequest (Productos.loadYearCount oY))
    ∧ (Productos.issuesRequest (Productos.loadYearCount oY) →
      (Productos.run sP (Productos.loadYearCount oY)).error = ""
      ∨ (Productos.run sP (Productos.loadYearCount oY)).error
          = "No se pudo cargar conteo de ventas anual.")
    ∧ (Productos.issuesRequest (Productos.handleSubmit sP w) →
      Productos.clearsErrorBeforeRequest (Productos.handleSubmit sP w))
    ∧ (Productos.issuesRequest (Productos.handleSubmit sP w) →
      (Productos.run sP (Productos.handleSubmit sP w)).error = ""
      ∨ (Productos.run sP (Productos.handleSubmit sP w)).error
          = "Error al guardar el producto.")
    ∧ (Productos.issuesRequest (Productos.handleDelete id w) →
      Productos.clearsErrorBeforeRequest (Productos.handleDelete id w))
    ∧ (Productos.issuesRequest (Productos.handleDelete id w) →
      (Productos.run sP (Productos.handleDelete id w)).error = ""
      ∨ (Productos.run sP (Productos.handleDelete id w)).error
          = "Error al deshabilitar el producto.")
    ∧ (Productos.issuesRequest (Productos.handleUpdatePrice id pr w) →
      Productos.clearsErrorBeforeRequest (Productos.handleUpdatePrice id pr w))
    ∧ (Productos.issuesRequest (Productos.handleUpdatePrice id pr w) →
      (Productos.run sP (Productos.handleUpdatePrice id pr w)).error = ""
      ∨ (Productos.run sP (Productos.handleUpdatePrice id pr w)).error
          = "Error al actualizar precio.")
    ∧ (Productos.issuesRequest (Productos.handleIncStock id pr w) →
      Productos.clearsErrorBeforeRequest (Productos.handleIncStock id pr w))
    ∧ (Productos.issuesRequest (Productos.handleIncStock id pr w) →
      (Productos.run sP (Productos.handleIncStock id pr w)).error = ""
      ∨ (Productos.run sP (Productos.handleIncStock id pr w)).error
          = "Error al incrementar stock.")
    ∧ (Productos.run
        { sP with error := "No se pudo cargar productos disponibles." }
        (Productos.loadRecentSold (FetchOutcome.success d))).error = "" := by
  refine ⟨?_, ?_, ?_, ?_, ?_, ?_, ?_, ?_, ?_, ?_, ?_, ?_, ?_, ?_, rfl⟩
  · intro _
    cases oL <;>
      simp [Productos.loadAvailable, Productos.clearsErrorBeforeRequest,
        Productos.Event.isRequest, List.takeWhile]
  · intro _
    cases oL <;>
      simp [Productos.loadAvailable, Productos.run, Productos.apply, List.foldl]
  · intro _
    cases oR <;>
      simp [Productos.loadRecentSold, Productos.clearsErrorBeforeRequest,
        Productos.Event.isRequest, List.takeWhile]
  · intro _
    cases oR <;>
      simp [Productos.loadRecentSold, Productos.run, Productos.apply, List.foldl]
  · intro _
    cases oY <;>
      simp [Productos.loadYearCount, Productos.clearsErrorBeforeRequest,
        Productos.Event.isRequest, List.takeWhile]
  · intro _
    cases oY <;>
      simp [Productos.loadYearCount, Productos.run, Productos.apply, List.foldl]
  · intro _
    cases w <;>
      simp [Productos.handleSubmit, Productos.clearsErrorBeforeRequest,
        Productos.Event.isRequest, List.takeWhile]
  · intro _
    cases w <;>
      simp [Productos.handleSubmit, Productos.run, Productos.apply, List.foldl]
  · intro _
    cases w <;>
      simp [Productos.handleDelete, Productos.clearsErrorBeforeRequest,
        Productos.Event.isRequest, List.takeWhile]
  · intro _
    cases w <;>
      simp [Productos.handleDelete, Productos.run, Productos.apply, List.foldl]
  · intro h
    rcases pr with _ | p
    · exact absurd h (by simp [Productos.issuesRequest, Productos.handleUpdatePrice])
    · by_cases hp : p = ""
      · exact absurd h
          (by simp [Productos.issuesRequest, Productos.handleUpdatePrice, hp])
      · cases w <;>
          simp [Productos.handleUpdatePrice, hp,
            Productos.clearsErrorBeforeRequest, Productos.Event.isRequest,
            List.takeWhile]
  · intro h
    rcases pr with _ | p
    · exact absurd h (by simp [Productos.issuesRequest, Productos.handleUpdatePrice])
    · by_cases hp : p = ""
      · exact absurd h
          (by simp [Productos.issuesRequest, Productos.handleUpdatePrice, hp])
      · cases w <;>
          simp [Productos.handleUpdatePrice, hp, Productos.run, Productos.apply,
            List.foldl]
  · intro h
    rcases pr with _ | p
    · exact absurd h (by simp [Productos.issuesRequest, Productos.handleIncStock])
    · by_cases hp : p = ""
      · exact absurd h
          (by simp [Productos.issuesRequest, Productos.handleIncStock, hp])
      · cases w <;>
          simp [Productos.handleIncStock, hp,
            Productos.clearsErrorBeforeRequest, Productos.Event.isRequest,
            List.takeWhile]
  · intro h
    rcases pr with _ | p
    · exact absurd h (by simp [Productos.issuesRequest, Productos.handleIncStock])
    · by_cases hp : p = ""
      · exact absurd h
          (by simp [Productos.issuesRequest, Productos.handleIncStock, hp])
      · cases w <;>
          simp [Productos.handleIncStock, hp, Productos.run, Productos.apply,
            List.foldl]

/-- C9 witness: the shared-error-slot contract instantiated at concrete
outcomes for all seven operations. -/
theorem c9_shared_error_slot_reset_witness :
    Productos.clearsErrorBeforeRequest
      (Productos.loadAvailable (FetchOutcome.success []))
    ∧ ((Productos.run pCreate (Productos.loadAvailable (FetchOutcome.success []))).error = ""
      ∨ (Productos.run pCreate (Productos.loadAvailable (FetchOutcome.success []))).error
          = "No se pudo cargar productos disponibles.")
    ∧ Productos.clearsErrorBeforeRequest
      (Productos.loadRecentSold (FetchOutcome.success []))
    ∧ ((Productos.run pCreate (Productos.loadRecentSold (FetchOutcome.success []))).error = ""
      ∨ (Productos.run pCreate (Productos.loadRecentSold (FetchOutcome.success []))).error
          = "No se pudo cargar productos vendidos esta semana.")
    ∧ Productos.clearsErrorBeforeRequest
      (Productos.loadYearCount (FetchOutcome.success 3))
    ∧ ((Productos.run pCreate (Productos.loadYearCount (FetchOutcome.success 3))).error = ""
      ∨ (Productos.run pCreate (Productos.loadYearCount (FetchOutcome.success 3))).error
          = "No se pudo cargar conteo de ventas anual.")
    ∧ Productos.clearsErrorBeforeRequest
      (Productos.handleSubmit pCreate WriteOutcome.okResp)
    ∧ ((Productos.run pCreate (Productos.handleSubmit pCreate WriteOutcome.okResp)).error = ""
      ∨ (Productos.run pCreate (Productos.handleSubmit pCreate WriteOutcome.okResp)).error
          = "Error al guardar el producto.")
    ∧ Productos.clearsErrorBeforeRequest
      (Productos.handleDelete "5" WriteOutcome.okResp)
    ∧ ((Productos.run pCreate (Productos.handleDelete "5" WriteOutcome.okResp)).error = ""
      ∨ (Productos.run pCreate (Productos.handleDelete "5" WriteOutcome.okResp)).error
          = "Error al deshabilitar el producto.")
    ∧ Productos.clearsErrorBeforeRequest
      (Productos.handleUpdatePrice "5" (some "2500") WriteOutcome.okResp)
    ∧ ((Productos.run pCreate
          (Productos.handleUpdatePrice "5" (some "2500") WriteOutcome.okResp)).error = ""
      ∨ (Productos.run pCreate
          (Productos.handleUpdatePrice "5" (some "2500") WriteOutcome.okResp)).error
          = "Error al actualizar precio.")
    ∧ Productos.clearsErrorBeforeRequest
      (Productos.handleIncStock "5" (some "2500") WriteOutcome.okResp)
    ∧ ((Productos.run pCreate
          (Productos.handleIncStock "5" (some "2500") WriteOutcome.okResp)).error = ""
      ∨ (Productos.run pCreate
          (Productos.handleIncStock "5" (some "2500") WriteOutcome.okResp)).error
          = "Error al incrementar stock.") := by
  have h := c9_shared_error_slot_reset pCreate (FetchOutcome.success [])
    (FetchOutcome.success []) (FetchOutcome.success 3) WriteOutcome.okResp "5"
    (some "2500") []
  exact ⟨h.1 (by decide), h.2.1 (by decide), h.2.2.1 (by decide),
    h.2.2.2.1 (by decide), h.2.2.2.2.1 (by decide),
    h.2.2.2.2.2.1 (by decide), h.2.2.2.2.2.2.1 (by decide),
    h.2.2.2.2.2.2.2.1 (by decide), h.2.2.2.2.2.2.2.2.1 (by decide),
    h.2.2.2.2.2.2.2.2.2.1 (by decide),
    h.2.2.2.2.2.2.2.2.2.2.1 (by decide),
    h.2.2.2.2.2.2.2.2.2.2.2.1 (by decide),
    h.2.2.2.2.2.2.2.2.2.2.2.2.1 (by decide),
    h.2.2.2.2.2.2.2.2.2.2.2.2.2.1 (by decide)⟩

/-- C10: the client list fetch carries a `?type=` query string exactly when
the filter is `'1'` or `'2'`; every other filter value, including the
default `'all'`, hits the bare collection URL. -/
theorem c10_client_filter_query_string
    (sC : Clientes.State) (o : FetchOutcome (List String)) :
    (sC.filter = "1" ∨ sC.filter = "2" →
      Clientes.requests (Clientes.loadClients sC o)
        = [Clientes.Event.request "GET"
            (Clientes.API ++ "?type=" ++ sC.filter) none])
    ∧ (¬ sC.filter = "1" → ¬ sC.filter = "2" →
      Clientes.requests (Clientes.loadClients sC o)
        = [Clientes.Event.request "GET" Clientes.API none]) := by
  constructor
  · intro h
    cases o <;>
      simp [Clientes.loadClients, Clientes.requests, Clientes.Event.isRequest,
        List.filter, h]
  · intro h1 h2
    have hcond : ¬ (sC.filter = "1" ∨ sC.filter = "2") := by
      rintro (h | h)
      · exact h1 h
      · exact h2 h
    cases o <;>
      simp [Clientes.loadClients, Clientes.requests, Clientes.Event.isRequest,
        List.filter, hcond]

/-- C10 witness: filter `'1'` produces the `?type=1` URL and filter `'all'`
the bare collection URL. -/
theorem c10_client_filter_query_string_witness :
    Clientes.requests (Clientes.loadClients cCreate (FetchOutcome.success []))
      = [Clientes.Event.request "GET"
          (Clientes.API ++ "?type=" ++ "1") none]
    ∧ Clientes.requests (Clientes.loadClients cEdit (FetchOutcome.success []))
      = [Clientes.Event.request "GET" Clientes.API none] :=
  ⟨(c10_client_filter_query_string cCreate (FetchOutcome.success [])).1
      (Or.inl rfl),
   (c10_client_filter_query_string cEdit (FetchOutcome.success [])).2
      (by decide) (by decide)⟩
